import Mathlib

/-!
Verification of the user registration / login / profile subsystem of the
`api_herenciacurly` service: a shallow embedding of
`src/services/user.service.js`, `src/controllers/user.controller.js`,
`src/repositories/user.repository.js` and
`src/middlewares/auth.middleware.js`, together with theorems about the
behaviour those files implement.

External libraries (`bcrypt`, `jsonwebtoken`) are not part of the
repository; they are modelled from the specification where a claim needs
them, and each such definition is marked `Modelled from the spec`.
-/

/-- Modelled from the spec: the `bcrypt` Credential Hasher is an external
dependency, not code under `src/`.  Per the spec, `hash` embeds a random
salt in a self-contained digest, and `verify` recomputes the hash from the
parameters embedded in the digest.  The randomness of the salt is made
explicit as a `salt` argument. -/
structure Digest where
  salt : Nat
  val : Nat
deriving DecidableEq, Repr

/-- Modelled from the spec: the one-way mixing function underlying the
hash; its exact value is irrelevant to the claims, only that `verify`
recomputes the same function from the embedded salt. -/
def bcryptMix (salt : Nat) (password : String) : Nat :=
  2 * (salt + 31 * password.length) + (password.data.map Char.toNat).sum

/-- Modelled from the spec: `bcrypt.hash(password, rounds)` with the random
salt passed explicitly; the digest is self-contained (salt embedded). -/
def bcryptHash (password : String) (salt : Nat) : Digest :=
  ⟨salt, bcryptMix salt password⟩

/-- Modelled from the spec: `bcrypt.compare(password, digest)` recomputes
using the parameters embedded in the digest. -/
def bcryptCompare (password : String) (d : Digest) : Bool :=
  bcryptMix d.salt password == d.val

/-- Modelled from the spec: the payload of a `jsonwebtoken` token as built
by `jwt.sign({ sub, email }, secret, { expiresIn })`: subject id, email,
issue time and expiry. -/
structure JwtPayload where
  sub : Nat
  email : String
  iat : Nat
  exp : Nat
deriving DecidableEq, Repr

/-- Modelled from the spec: the signature over the payload computed with
the symmetric secret; its exact value is irrelevant, only that `verify`
recomputes it and compares. -/
def jwtSignature (secret : String) (p : JwtPayload) : Nat :=
  1000003 * (secret.data.map Char.toNat).sum +
    31 * p.sub + 7 * (p.email.data.map Char.toNat).sum + 13 * p.iat + 17 * p.exp

/-- Modelled from the spec: a signed token is the payload with its
signature. -/
structure JwtToken where
  payload : JwtPayload
  sig : Nat
deriving DecidableEq, Repr

/-- Default token time-to-live: `JWT_EXPIRES_IN` defaults to "1h" in
`user.service.js`. -/
def defaultTtlSeconds : Nat := 3600

/-- Modelled from the spec: `jwt.sign`: builds a signed assertion with
expiry equal to issue time plus ttl. -/
def jwtSign (sub : Nat) (email : String) (secret : String) (iat ttl : Nat) : JwtToken :=
  let p : JwtPayload := ⟨sub, email, iat, iat + ttl⟩
  ⟨p, jwtSignature secret p⟩

/-- Modelled from the spec: `jwt.verify`: checks the signature, then that
`now <= expiresAt`; any failure is a rejection (`none`). -/
def jwtVerify (t : JwtToken) (secret : String) (now : Nat) : Option JwtPayload :=
  if t.sig ≠ jwtSignature secret t.payload then none
  else if t.payload.exp < now then none
  else some t.payload

/-- A user row as mapped by `mapRow` in `user.repository.js`:
id, name, email, passwordHash, createdAt. -/
structure UserRow where
  id : Nat
  name : String
  email : String
  passwordHash : Digest
  createdAt : String
deriving DecidableEq, Repr

/-- `findByEmail` of `user.repository.js`: the first row whose `email`
column equals the argument, or `null`. -/
def findByEmail (store : List UserRow) (email : String) : Option UserRow :=
  store.find? (fun r => r.email == email)

/-- `findById` of `user.repository.js`: the first row whose `id` column
equals the argument, or `null`. -/
def findById (store : List UserRow) (id : Nat) : Option UserRow :=
  store.find? (fun r => r.id == id)

/-- An error thrown by the service layer: `message` plus the optional
`statusCode` property the service attaches (`none` models a raw error,
such as a database driver error, that has no `statusCode`). -/
structure ServiceError where
  statusCode : Option Nat
  message : String
deriving DecidableEq, Repr

/-- A JSON leaf value in a response body. -/
inductive JVal where
  | str (v : String)
  | num (v : Nat)
  | tok (t : JwtToken)
deriving DecidableEq, Repr

/-- One key of a JSON response body: either a primitive field or a nested
one-level object (the `user` object of the login response). -/
inductive JEntry where
  | prim (key : String) (v : JVal)
  | obj (key : String) (fields : List (String × JVal))
deriving DecidableEq, Repr

/-- All keys an entry contributes to the body, nested keys included. -/
def entryKeys : JEntry → List String
  | .prim k _ => [k]
  | .obj k fields => k :: fields.map Prod.fst

/-- All keys of a response body, nested keys included. -/
def bodyKeys (b : List JEntry) : List String :=
  (b.map entryKeys).flatten

/-- An HTTP response as produced by the controllers:
`res.status(status).json(body)`. -/
structure Response where
  status : Nat
  body : List JEntry
deriving DecidableEq, Repr

/-- The status selection of the controllers' catch blocks:
`error.statusCode || 500` — a missing (or zero, hence falsy) `statusCode`
yields 500. -/
def jsStatus : Option Nat → Nat
  | none => 500
  | some 0 => 500
  | some s => s

/-- The shared catch block of `register`, `login` and `me` in
`user.controller.js`:
`res.status(error.statusCode || 500).json({ message: error.message })`. -/
def handleError (e : ServiceError) : Response :=
  ⟨jsStatus e.statusCode, [.prim "message" (.str e.message)]⟩

/-- `registerUser` of `user.service.js` over a sequential list store:
pre-check `findByEmail`; if a row exists throw 409
"El email ya esta registrado"; otherwise hash the password and insert the
new row (the database generates `id` and `created_at`, passed here as
`newId` and `nowTs`; the bcrypt salt is the explicit `salt`).  Returns the
service result together with the resulting store state. -/
def registerUser (store : List UserRow) (salt newId : Nat) (nowTs : String)
    (name email password : String) : Except ServiceError UserRow × List UserRow :=
  match findByEmail store email with
  | some _ => (.error ⟨some 409, "El email ya esta registrado"⟩, store)
  | none =>
      let passwordHash := bcryptHash password salt
      let row : UserRow := ⟨newId, name, email, passwordHash, nowTs⟩
      (.ok row, store ++ [row])

/-- A raw error raised by the database driver on `INSERT` (for example a
unique-constraint violation): it carries only a message — in particular no
`statusCode` property. -/
structure DbError where
  message : String
deriving DecidableEq, Repr

/-- The store as seen by one `registerUser` call under concurrency: the
responses of `findByEmail` and of the `INSERT` in `createUser` are given
as behaviours, so the insert may fail with a duplicate-key error even
though the pre-check found the email absent (the race the spec
discusses). -/
structure StoreBehavior where
  findByEmail : String → Option UserRow
  insert : String → String → Digest → Except DbError UserRow

/-- `registerUser` of `user.service.js` against an abstract store
behaviour.  The body is the same as the sequential version; a failure of
the insert is not caught anywhere in the service, so the raw `DbError`
propagates as a service error without `statusCode`. -/
def registerUserB (b : StoreBehavior) (salt : Nat)
    (name email password : String) : Except ServiceError UserRow :=
  match b.findByEmail email with
  | some _ => .error ⟨some 409, "El email ya esta registrado"⟩
  | none =>
      match b.insert name email (bcryptHash password salt) with
      | .error e => .error ⟨none, e.message⟩
      | .ok row => .ok row

/-- The result of a successful `loginUser`: the signed token and the
authenticated user. -/
structure LoginResult where
  token : JwtToken
  user : UserRow
deriving DecidableEq, Repr

/-- `loginUser` of `user.service.js`: look the user up by email; if absent
throw 401 "Credenciales invalidas"; compare the password against the
stored hash; on mismatch throw the same 401 error; otherwise sign a token
`{ sub, email }` with the default ttl and return it with the user. -/
def loginUser (store : List UserRow) (secret : String) (nowSec : Nat)
    (email password : String) : Except ServiceError LoginResult :=
  match findByEmail store email with
  | none => .error ⟨some 401, "Credenciales invalidas"⟩
  | some user =>
      if bcryptCompare password user.passwordHash then
        .ok ⟨jwtSign user.id user.email secret nowSec defaultTtlSeconds, user⟩
      else
        .error ⟨some 401, "Credenciales invalidas"⟩

/-- `getProfile` of `user.service.js`: look the user up by id; if absent
throw 404 "Usuario no encontrado". -/
def getProfile (store : List UserRow) (userId : Nat) : Except ServiceError UserRow :=
  match findById store userId with
  | none => .error ⟨some 404, "Usuario no encontrado"⟩
  | some u => .ok u

/-- The 201 body built by the `register` controller:
`{ id, name, email, createdAt }`. -/
def registerBody (u : UserRow) : List JEntry :=
  [.prim "id" (.num u.id), .prim "name" (.str u.name),
    .prim "email" (.str u.email), .prim "createdAt" (.str u.createdAt)]

/-- The 200 body built by the `login` controller:
`{ token, user: { id, name, email } }`. -/
def loginBody (r : LoginResult) : List JEntry :=
  [.prim "token" (.tok r.token),
    .obj "user" [("id", .num r.user.id), ("name", .str r.user.name),
      ("email", .str r.user.email)]]

/-- The 200 body built by the `me` controller:
`{ id, name, email, createdAt }`. -/
def meBody (u : UserRow) : List JEntry :=
  [.prim "id" (.num u.id), .prim "name" (.str u.name),
    .prim "email" (.str u.email), .prim "createdAt" (.str u.createdAt)]

/-- The missing-field validation body shared by `register` and `login`. -/
def missingDataBody : List JEntry :=
  [.prim "message" (.str "Faltan datos requeridos")]

/-- `register` of `user.controller.js` over the sequential store: 400 when
a field is missing (falsy: the empty string), 201 with the created user
view on success, otherwise the shared catch block. -/
def registerController (store : List UserRow) (salt newId : Nat) (nowTs : String)
    (name email password : String) : Response × List UserRow :=
  if name = "" ∨ email = "" ∨ password = "" then (⟨400, missingDataBody⟩, store)
  else
    match registerUser store salt newId nowTs name email password with
    | (.ok u, store2) => (⟨201, registerBody u⟩, store2)
    | (.error e, store2) => (handleError e, store2)

/-- `register` of `user.controller.js` against an abstract store
behaviour (used to examine the duplicate-key race on insert). -/
def registerControllerB (b : StoreBehavior) (salt : Nat)
    (name email password : String) : Response :=
  if name = "" ∨ email = "" ∨ password = "" then ⟨400, missingDataBody⟩
  else
    match registerUserB b salt name email password with
    | .ok u => ⟨201, registerBody u⟩
    | .error e => handleError e

/-- `login` of `user.controller.js`: 400 when a field is missing, 200 with
`{ token, user view }` on success, otherwise the shared catch block. -/
def loginController (store : List UserRow) (secret : String) (nowSec : Nat)
    (email password : String) : Response :=
  if email = "" ∨ password = "" then ⟨400, missingDataBody⟩
  else
    match loginUser store secret nowSec email password with
    | .ok r => ⟨200, loginBody r⟩
    | .error e => handleError e

/-- `me` of `user.controller.js`: 200 with the user view on success,
otherwise the shared catch block. -/
def meController (store : List UserRow) (userId : Nat) : Response :=
  match getProfile store userId with
  | .ok u => ⟨200, meBody u⟩
  | .error e => handleError e

/-- The result of the auth middleware: either an early response or
passing control on with `req.user = { id, email }`. -/
inductive AuthResult where
  | respond (r : Response)
  | next (id : Nat) (email : String)
deriving DecidableEq, Repr

/-- Splitting a character list at every space, with the semantics of the
JavaScript `split(" ")`: the empty string yields one empty part, and
consecutive spaces yield empty parts. -/
def splitSpace : List Char → List (List Char)
  | [] => [[]]
  | c :: rest =>
      match splitSpace rest with
      | [] => [[]]
      | w :: ws => if c = ' ' then [] :: w :: ws else (c :: w) :: ws

/-- The parts of `authHeader.split(" ")` as strings. -/
def headerParts (s : String) : List String :=
  (splitSpace s.data).map (fun cs => ⟨cs⟩)

/-- The first space-separated part of the authorization header
(`const [scheme, token] = authHeader.split(" ")`, with
`req.headers.authorization || ""` for an absent header). -/
def schemeOf (header : Option String) : String :=
  (headerParts (header.getD "")).getD 0 ""

/-- The second space-separated part of the authorization header; an
absent part is collapsed with the empty string, exactly as the falsy
check `!token` does in the source. -/
def tokenOf (header : Option String) : String :=
  (headerParts (header.getD "")).getD 1 ""

/-- The 401 body for a malformed header: `{ message: "No autorizado" }`. -/
def noAutorizadoBody : List JEntry :=
  [.prim "message" (.str "No autorizado")]

/-- The 401 body for a failed token verification:
`{ message: "Token invalido" }`. -/
def tokenInvalidoBody : List JEntry :=
  [.prim "message" (.str "Token invalido")]

/-- `authMiddleware` of `auth.middleware.js`, with the external
`jwt.verify` call abstracted as `verify` (returning `none` where the
library throws): reject 401 "No autorizado" when the scheme is not
exactly "Bearer" or the token part is missing; otherwise verify, rejecting
401 "Token invalido" on any verification failure, and pass the payload's
subject and email on as the authenticated context. -/
def authMiddleware (header : Option String)
    (verify : String → Option JwtPayload) : AuthResult :=
  if schemeOf header ≠ "Bearer" ∨ tokenOf header = "" then
    .respond ⟨401, noAutorizadoBody⟩
  else
    match verify (tokenOf header) with
    | none => .respond ⟨401, tokenInvalidoBody⟩
    | some payload => .next payload.sub payload.email

/-- The post-parse step of the middleware: what happens once the verifier
is actually consulted on the token. -/
def verifyStep (verify : String → Option JwtPayload) (token : String) : AuthResult :=
  match verify token with
  | none => .respond ⟨401, tokenInvalidoBody⟩
  | some payload => .next payload.sub payload.email

/-- A malformed authorization header: absent, wrong (case-sensitive)
scheme, or no non-empty token part after the scheme. -/
def badHeader (header : Option String) : Prop :=
  schemeOf header ≠ "Bearer" ∨ tokenOf header = ""

instance (header : Option String) : Decidable (badHeader header) := by
  unfold badHeader; infer_instance

/-- A concrete registered user, as in the spec scenario: Ana, registered
with password "secret123" (bcrypt salt 7). -/
def anaRow : UserRow :=
  ⟨1, "Ana", "ana@x.com", bcryptHash "secret123" 7, "2026-02-17"⟩

/-- A concrete one-user store. -/
def anaStore : List UserRow := [anaRow]

/-- A concrete verifier that accepts every token (used to instantiate the
abstract `jwt.verify` collaborator). -/
def someVerify : String → Option JwtPayload := fun _ => some ⟨1, "ana@x.com", 0, 3600⟩

/-- A concrete verifier that rejects every token, as `jwt.verify` does for
an invalid signature or an expired token. -/
def rejectVerify : String → Option JwtPayload := fun _ => none

/-- C5: verifying a password against the digest produced by hashing it
succeeds, and hashing the same password under two distinct (random) salts
produces two distinct digests. -/
theorem c5_hash_verify_roundtrip (p : String) (s1 s2 : Nat) :
    bcryptCompare p (bcryptHash p s1) = true ∧
    (s1 ≠ s2 → bcryptHash p s1 ≠ bcryptHash p s2) := by
  constructor
  · simp [bcryptCompare, bcryptHash]
  · intro hne hc
    exact hne (congrArg Digest.salt hc)

theorem c5_hash_verify_roundtrip_witness :
    bcryptCompare "secret123" (bcryptHash "secret123" 1) = true ∧
    bcryptHash "secret123" 1 ≠ bcryptHash "secret123" 2 :=
  ⟨(c5_hash_verify_roundtrip "secret123" 1 2).1,
    (c5_hash_verify_roundtrip "secret123" 1 2).2 (by decide)⟩

/-- C6: issuing a token for an account id and email and immediately
verifying it succeeds, yielding the assertion whose subject is the id,
whose email is the given email, and whose expiry is the issue time plus
the ttl; the default ttl is one hour (3600 seconds). -/
theorem c6_issue_then_verify (id : Nat) (email secret : String) (iat ttl : Nat) :
    jwtVerify (jwtSign id email secret iat ttl) secret iat =
      some ⟨id, email, iat, iat + ttl⟩ ∧ defaultTtlSeconds = 3600 := by
  refine ⟨?_, rfl⟩
  simp [jwtVerify, jwtSign]

/-- C10: the controllers' shared catch block uses the error's
`statusCode` when present (service errors always carry a positive one)
and 500 otherwise, and puts the error's message verbatim in the body. -/
theorem c10_catch_block (e : ServiceError) :
    (e.statusCode = none → handleError e = ⟨500, [.prim "message" (.str e.message)]⟩) ∧
    (∀ s, e.statusCode = some s → 0 < s →
      handleError e = ⟨s, [.prim "message" (.str e.message)]⟩) := by
  constructor
  · intro h
    simp [handleError, h, jsStatus]
  · intro s hs hpos
    cases s with
    | zero => exact absurd hpos (by simp)
    | succ n => simp [handleError, hs, jsStatus]

theorem c10_catch_block_witness :
    handleError ⟨none, "connection terminated unexpectedly"⟩ =
      ⟨500, [.prim "message" (.str "connection terminated unexpectedly")]⟩ ∧
    handleError ⟨some 409, "El email ya esta registrado"⟩ =
      ⟨409, [.prim "message" (.str "El email ya esta registrado")]⟩ :=
  ⟨(c10_catch_block ⟨none, "connection terminated unexpectedly"⟩).1 rfl,
    (c10_catch_block ⟨some 409, "El email ya esta registrado"⟩).2 409 rfl (by decide)⟩

/-- C8: when the pre-check finds the email already registered,
`registerUser` fails with the 409 EmailTaken error, performs no insert
(the store is returned unchanged), and the controller surfaces the 409
conflict response. -/
theorem c8_email_taken_no_insert (store : List UserRow) (salt newId : Nat)
    (nowTs name email password : String) (u : UserRow)
    (hn : name ≠ "") (he : email ≠ "") (hp : password ≠ "")
    (hfound : findByEmail store email = some u) :
    registerUser store salt newId nowTs name email password =
      (.error ⟨some 409, "El email ya esta registrado"⟩, store) ∧
    registerController store salt newId nowTs name email password =
      (⟨409, [.prim "message" (.str "El email ya esta registrado")]⟩, store) := by
  have hreg : registerUser store salt newId nowTs name email password =
      (.error ⟨some 409, "El email ya esta registrado"⟩, store) := by
    simp [registerUser, hfound]
  refine ⟨hreg, ?_⟩
  have hcond : ¬(name = "" ∨ email = "" ∨ password = "") := by
    push_neg
    exact ⟨hn, he, hp⟩
  simp [registerController, hcond, hreg, handleError, jsStatus]

theorem c8_email_taken_no_insert_witness :
    registerUser anaStore 3 2 "2026-02-18" "Ana2" "ana@x.com" "other" =
      (.error ⟨some 409, "El email ya esta registrado"⟩, anaStore) ∧
    registerController anaStore 3 2 "2026-02-18" "Ana2" "ana@x.com" "other" =
      (⟨409, [.prim "message" (.str "El email ya esta registrado")]⟩, anaStore) :=
  c8_email_taken_no_insert anaStore 3 2 "2026-02-18" "Ana2" "ana@x.com" "other" anaRow
    (by decide) (by decide) (by decide) (by decide)

/-- C2: a login with an email present in the store but a wrong password
and a login with an email absent from the store fail with the identical
response: same 401 status and the same single message field, nothing
distinguishing the two causes. -/
theorem c2_login_failures_indistinguishable
    (store : List UserRow) (secret : String) (now : Nat)
    (e p e2 p2 : String) (u : UserRow)
    (he : e ≠ "") (hp : p ≠ "") (he2 : e2 ≠ "") (hp2 : p2 ≠ "")
    (hfound : findByEmail store e = some u)
    (hwrong : bcryptCompare p u.passwordHash = false)
    (habsent : findByEmail store e2 = none) :
    loginController store secret now e p = loginController store secret now e2 p2 ∧
    loginController store secret now e p =
      ⟨401, [.prim "message" (.str "Credenciales invalidas")]⟩ := by
  have hc1 : ¬(e = "" ∨ p = "") := by
    push_neg
    exact ⟨he, hp⟩
  have hc2 : ¬(e2 = "" ∨ p2 = "") := by
    push_neg
    exact ⟨he2, hp2⟩
  have hl1 : loginUser store secret now e p =
      .error ⟨some 401, "Credenciales invalidas"⟩ := by
    simp [loginUser, hfound, hwrong]
  have hl2 : loginUser store secret now e2 p2 =
      .error ⟨some 401, "Credenciales invalidas"⟩ := by
    simp [loginUser, habsent]
  have hr1 : loginController store secret now e p =
      ⟨401, [.prim "message" (.str "Credenciales invalidas")]⟩ := by
    simp [loginController, hc1, hl1, handleError, jsStatus]
  have hr2 : loginController store secret now e2 p2 =
      ⟨401, [.prim "message" (.str "Credenciales invalidas")]⟩ := by
    simp [loginController, hc2, hl2, handleError, jsStatus]
  exact ⟨hr1.trans hr2.symm, hr1⟩

theorem c2_login_failures_indistinguishable_witness :
    loginController anaStore "topsecret" 0 "ana@x.com" "wrong" =
      loginController anaStore "topsecret" 0 "bob@x.com" "whatever" ∧
    loginController anaStore "topsecret" 0 "ana@x.com" "wrong" =
      ⟨401, [.prim "message" (.str "Credenciales invalidas")]⟩ :=
  c2_login_failures_indistinguishable anaStore "topsecret" 0
    "ana@x.com" "wrong" "bob@x.com" "whatever" anaRow
    (by decide) (by decide) (by decide) (by decide)
    (by decide) (by decide) (by decide)

/-- A body is safe when it exposes no credential field, at any nesting
level. -/
def safeBody (b : List JEntry) : Prop :=
  "passwordHash" ∉ bodyKeys b ∧ "password" ∉ bodyKeys b ∧ "credentialHash" ∉ bodyKeys b

theorem safeBody_missing : safeBody missingDataBody := by
  simp [safeBody, missingDataBody, bodyKeys, entryKeys]

theorem safeBody_handleError (e : ServiceError) : safeBody (handleError e).body := by
  simp [safeBody, handleError, bodyKeys, entryKeys]

theorem safeBody_registerBody (u : UserRow) : safeBody (registerBody u) := by
  simp [safeBody, registerBody, bodyKeys, entryKeys]

theorem safeBody_loginBody (r : LoginResult) : safeBody (loginBody r) := by
  simp [safeBody, loginBody, bodyKeys, entryKeys]

theorem safeBody_meBody (u : UserRow) : safeBody (meBody u) := by
  simp [safeBody, meBody, bodyKeys, entryKeys]

/-- C7: no response of the register, login or profile controllers —
successful ones in particular — carries a `passwordHash`, `password` or
`credentialHash` field at any nesting level: the account representations
returned are restricted to the safe view fields. -/
theorem c7_no_credential_exposure
    (store : List UserRow) (salt newId : Nat) (nowTs : String)
    (name email password secret : String) (now : Nat)
    (lemail lpassword : String) (userId : Nat) :
    safeBody (registerController store salt newId nowTs name email password).1.body ∧
    safeBody (loginController store secret now lemail lpassword).body ∧
    safeBody (meController store userId).body := by
  refine ⟨?_, ?_, ?_⟩
  · unfold registerController
    split
    · exact safeBody_missing
    · split
      · exact safeBody_registerBody _
      · exact safeBody_handleError _
  · unfold loginController
    split
    · exact safeBody_missing
    · split
      · exact safeBody_loginBody _
      · exact safeBody_handleError _
  · unfold meController
    split
    · exact safeBody_meBody _
    · exact safeBody_handleError _

/-- C4: a malformed authorization header — absent, scheme other than the
literal "Bearer", or no non-empty token part — is rejected 401 with no
call to the verifier (the outcome is the same for any two verifiers),
while a well-formed header hands the token part to the verifier. -/
theorem c4_cheap_rejection (header : Option String)
    (v v2 : String → Option JwtPayload) :
    (badHeader header →
      authMiddleware header v = authMiddleware header v2 ∧
      authMiddleware header v = .respond ⟨401, noAutorizadoBody⟩) ∧
    (¬ badHeader header →
      authMiddleware header v = verifyStep v (tokenOf header)) := by
  constructor
  · intro hb
    have hb' : schemeOf header ≠ "Bearer" ∨ tokenOf header = "" := hb
    unfold authMiddleware
    rw [if_pos hb', if_pos hb']
    exact ⟨rfl, rfl⟩
  · intro hb
    have hb' : ¬(schemeOf header ≠ "Bearer" ∨ tokenOf header = "") := hb
    unfold authMiddleware verifyStep
    rw [if_neg hb']

theorem c4_cheap_rejection_witness :
    (authMiddleware none rejectVerify = authMiddleware none someVerify ∧
      authMiddleware none rejectVerify = .respond ⟨401, noAutorizadoBody⟩) ∧
    authMiddleware (some "Bearer abc") rejectVerify =
      verifyStep rejectVerify (tokenOf (some "Bearer abc")) :=
  ⟨(c4_cheap_rejection none rejectVerify someVerify).1 (by decide),
    (c4_cheap_rejection (some "Bearer abc") rejectVerify someVerify).2 (by decide)⟩

/-- C3, counterexample: an absent header and a well-formed header whose
token the verifier rejects are both rejected, but with different bodies
("No autorizado" versus "Token invalido"), so the rejection causes do not
all share one response body. -/
theorem c3_counterexample :
    authMiddleware none rejectVerify = .respond ⟨401, noAutorizadoBody⟩ ∧
    authMiddleware (some "Bearer expired") rejectVerify =
      .respond ⟨401, tokenInvalidoBody⟩ ∧
    (⟨401, noAutorizadoBody⟩ : Response) ≠ ⟨401, tokenInvalidoBody⟩ := by
  refine ⟨by decide, by decide, by decide⟩

/-- C3, amended: every rejection of the auth gate has status 401 with a
single opaque message; all header-format failures (absent header, wrong
scheme, missing token part) share the body "No autorizado", and all
verification failures (invalid signature, expired, malformed payload)
share the body "Token invalido" — causes within each class are
indistinguishable, but the two classes have different bodies. -/
theorem c3_unauthorized_classes (header : Option String)
    (verify : String → Option JwtPayload) :
    (∀ r : Response, authMiddleware header verify = .respond r → r.status = 401) ∧
    (badHeader header →
      authMiddleware header verify = .respond ⟨401, noAutorizadoBody⟩) ∧
    (¬ badHeader header → verify (tokenOf header) = none →
      authMiddleware header verify = .respond ⟨401, tokenInvalidoBody⟩) := by
  have hbad : ∀ hb : badHeader header,
      authMiddleware header verify = .respond ⟨401, noAutorizadoBody⟩ := by
    intro hb
    have hb' : schemeOf header ≠ "Bearer" ∨ tokenOf header = "" := hb
    unfold authMiddleware
    rw [if_pos hb']
  have hgood : ∀ _ : ¬ badHeader header, verify (tokenOf header) = none →
      authMiddleware header verify = .respond ⟨401, tokenInvalidoBody⟩ := by
    intro hb hv
    have hb' : ¬(schemeOf header ≠ "Bearer" ∨ tokenOf header = "") := hb
    unfold authMiddleware
    rw [if_neg hb', hv]
  refine ⟨?_, hbad, hgood⟩
  intro r hr
  by_cases hb : badHeader header
  · rw [hbad hb] at hr
    cases hr
    rfl
  · have hb' : ¬(schemeOf header ≠ "Bearer" ∨ tokenOf header = "") := hb
    unfold authMiddleware at hr
    rw [if_neg hb'] at hr
    cases hv : verify (tokenOf header) with
    | none =>
        rw [hv] at hr
        cases hr
        rfl
    | some payload =>
        rw [hv] at hr
        cases hr

theorem c3_unauthorized_classes_witness :
    authMiddleware (some "bearer abc") someVerify =
      .respond ⟨401, noAutorizadoBody⟩ ∧
    authMiddleware (some "Bearer abc") rejectVerify =
      .respond ⟨401, tokenInvalidoBody⟩ :=
  ⟨(c3_unauthorized_classes (some "bearer abc") someVerify).2.1 (by decide),
    (c3_unauthorized_classes (some "Bearer abc") rejectVerify).2.2 (by decide) rfl⟩

/-- The raw message of a PostgreSQL unique-constraint violation on the
users email column. -/
def dupKeyMessage : String :=
  "duplicate key value violates unique constraint users_email_key"

/-- The store behaviour seen by a register call that loses the
duplicate-email race: the pre-check finds the email absent, but the
insert hits the unique constraint. -/
def raceStore : StoreBehavior where
  findByEmail := fun _ => none
  insert := fun _ _ _ => .error ⟨dupKeyMessage⟩

/-- C1: when the insert fails with a duplicate-key uniqueness violation
after the pre-check found the email absent, `registerUser` propagates the
raw driver error — which carries no `statusCode` — so the register
endpoint answers 500 with the raw database message, not the 409
EmailTaken conflict the spec requires. -/
theorem c1_duplicate_insert_yields_500 :
    registerControllerB raceStore 5 "Ana2" "ana@x.com" "other" =
      ⟨500, [.prim "message" (.str dupKeyMessage)]⟩ ∧
    (registerControllerB raceStore 5 "Ana2" "ana@x.com" "other").status ≠ 409 ∧
    registerUserB raceStore 5 "Ana2" "ana@x.com" "other" =
      .error ⟨none, dupKeyMessage⟩ := by
  refine ⟨by decide, by decide, rfl⟩

/-- C9, counterexample: a successful login response whose user view does
not contain the `createdAt` field, although the claim says the login
account view includes it. -/
theorem c9_counterexample :
    (loginController anaStore "topsecret" 0 "ana@x.com" "secret123").status = 200 ∧
    "createdAt" ∉ bodyKeys (loginController anaStore "topsecret" 0 "ana@x.com" "secret123").body := by
  refine ⟨by decide, by decide⟩

/-- C9, amended: a successful login yields 200 with a token and a user
view whose fields are exactly id, name and email — `createdAt` is not
included (unlike the register and profile views) and `credentialHash`
never is. -/
theorem c9_login_success_view
    (store : List UserRow) (secret : String) (now : Nat)
    (email password : String) (u : UserRow)
    (he : email ≠ "") (hp : password ≠ "")
    (hfound : findByEmail store email = some u)
    (hmatch : bcryptCompare password u.passwordHash = true) :
    loginController store secret now email password =
      ⟨200, loginBody ⟨jwtSign u.id u.email secret now defaultTtlSeconds, u⟩⟩ ∧
    bodyKeys (loginBody ⟨jwtSign u.id u.email secret now defaultTtlSeconds, u⟩) =
      ["token", "user", "id", "name", "email"] := by
  have hc : ¬(email = "" ∨ password = "") := by
    push_neg
    exact ⟨he, hp⟩
  have hl : loginUser store secret now email password =
      .ok ⟨jwtSign u.id u.email secret now defaultTtlSeconds, u⟩ := by
    simp [loginUser, hfound, hmatch]
  constructor
  · simp [loginController, hc, hl]
  · simp [loginBody, bodyKeys, entryKeys]

theorem c9_login_success_view_witness :
    loginController anaStore "topsecret" 0 "ana@x.com" "secret123" =
      ⟨200, loginBody ⟨jwtSign anaRow.id anaRow.email "topsecret" 0 defaultTtlSeconds, anaRow⟩⟩ ∧
    bodyKeys (loginBody ⟨jwtSign anaRow.id anaRow.email "topsecret" 0 defaultTtlSeconds, anaRow⟩) =
      ["token", "user", "id", "name", "email"] :=
  c9_login_success_view anaStore "topsecret" 0 "ana@x.com" "secret123" anaRow
    (by decide) (by decide) (by decide) (by decide)
